import Mathlib

/-!
Shallow embedding of the backuph repository (src/dir_tree.py, src/backuph.py).

The module dir_tree.py builds an in-memory tree of a directory subtree
(_DirNode, _get_items, build_subtree), renders it (_draw_node, _draw_files,
draw_subtree) and archives it by invoking tar as an external process
(archive_subtree, _call_tar).  The filesystem is modelled as an inductive
tree of entries, the external world (tar completion statuses, path existence,
mkdir failures) as an environment record, and the effects performed by the
archiver as an explicit event trace.
-/

namespace Backuph

/-! ### Path helpers, embedding os.path on POSIX as used by the module -/

/-- Whether the first list is an initial segment of the second. -/
def listIsHeadOf : List Char → List Char → Bool
  | [], _ => true
  | _ :: _, [] => false
  | a :: as, b :: bs => a == b && listIsHeadOf as bs

/-- Python str.startswith. -/
def strStartsWith (s p : String) : Bool := listIsHeadOf p.data s.data

/-- Python str.endswith. -/
def strEndsWith (s p : String) : Bool := listIsHeadOf p.data.reverse s.data.reverse

/-- Python str.rstrip with the single character slash: drop all trailing
slash characters. -/
def rstripSlashes (s : String) : String :=
  String.mk ((s.data.reverse.dropWhile (fun c => c == '/')).reverse)

/-- os.path.basename: the part of the path after the last slash. -/
def basename (p : String) : String :=
  String.mk ((p.data.reverse.takeWhile (fun c => c != '/')).reverse)

/-- os.path.dirname on POSIX: the part of the path up to the last slash;
trailing slashes of the result are stripped unless the result is all
slashes; empty when the path has no slash. -/
def dirname (p : String) : String :=
  let l := p.data
  if l.contains '/' then
    let head := (l.reverse.dropWhile (fun c => c != '/')).reverse
    if head.all (fun c => c == '/') then String.mk head
    else String.mk ((head.reverse.dropWhile (fun c => c == '/')).reverse)
  else ""

/-- os.path.join on POSIX for two components, as the module uses it
(imported as ospjoin). -/
def ospjoin (a b : String) : String :=
  if strStartsWith b "/" then b
  else if a = "" ∨ strEndsWith a "/" then a ++ b
  else a ++ "/" ++ b

/-! ### The data model: _DirNode -/

/-- One directory of the tree: the fields path, name, files and children of
the class _DirNode.  The parent back-reference is omitted: archive_subtree,
draw_subtree and build_subtree never read it (the source only stores it). -/
structure DirNode where
  path : String
  name : String
  files : List String
  children : List DirNode

/-! ### Building the tree: _get_items and build_subtree

The filesystem below a directory is modelled as a list of entries in
directory-listing order; each entry is a file name or a subdirectory with
its own entries (os.path.isdir distinguishes the two in the source). -/

inductive FSEntry where
  | file : String → FSEntry
  | dir : String → List FSEntry → FSEntry

/-- The files part of _get_items: walk the listing, skip an entry whose name
starts with the hidden marker dot unless take_hidden, and collect the names
of the non-directory entries in order. -/
def getFiles (takeHidden : Bool) : List FSEntry → List String
  | [] => []
  | FSEntry.file f :: rest =>
    if strStartsWith f "." && !takeHidden then getFiles takeHidden rest
    else f :: getFiles takeHidden rest
  | FSEntry.dir _ _ :: rest => getFiles takeHidden rest

mutual

/-- build_subtree on a directory at the given path whose listing is the
given entries: _get_items populates files and children (filtering hidden
entries by the take_hidden flag), then the children are built recursively.
As in the source, the recursive call child.build_subtree() passes no
argument, so the children are built with the default take_hidden = false. -/
def build_subtree (takeHidden : Bool) (path : String) (entries : List FSEntry) : DirNode :=
  DirNode.mk path (basename (rstripSlashes path))
    (getFiles takeHidden entries)
    (buildChildren takeHidden path entries)
termination_by sizeOf entries + 1

/-- The children part of _get_items combined with the recursion loop of
build_subtree: each non-hidden (or take_hidden) directory entry becomes a
child node built at path/name, and the recursion uses the default
take_hidden = false as the source does. -/
def buildChildren (takeHidden : Bool) (path : String) : List FSEntry → List DirNode
  | [] => []
  | FSEntry.file _ :: rest => buildChildren takeHidden path rest
  | FSEntry.dir d sub :: rest =>
    if strStartsWith d "." && !takeHidden then buildChildren takeHidden path rest
    else build_subtree false (ospjoin path d) sub :: buildChildren takeHidden path rest
termination_by l => sizeOf l

end

/-! ### Rendering: _draw_node, _draw_files, draw_subtree -/

/-- The constant PREFIX_SUFFIX_LENGTH of the module. -/
def PREFIX_SUFFIX_LENGTH : Nat := 3

/-- A run of indent space characters. -/
def indentSpaces (indent : Nat) : String :=
  String.mk (List.replicate indent ' ')

/-- The suffix chosen by _draw_node: a plus when the node has children,
an o when it has neither files nor children and counts is off, otherwise a
colon, followed by the file count when counts is on. -/
def nodeSuffix (node : DirNode) (counts : Bool) : String :=
  if !node.children.isEmpty then " +"
  else if node.files.isEmpty && !counts then " o"
  else " :" ++ (if counts then " " ++ toString node.files.length else "")

/-- The line printed by _draw_node: spaces, a bar marker, the name and the
suffix. -/
def drawNodeLine (node : DirNode) (indent : Nat) (counts : Bool) : String :=
  indentSpaces indent ++ "| " ++ node.name ++ nodeSuffix node counts

/-- The lines printed by _draw_files: one star line per contained file, in
order, at the given indentation. -/
def drawFileLines (indent : Nat) : List String → List String
  | [] => []
  | f :: rest => (indentSpaces indent ++ "* " ++ f) :: drawFileLines indent rest

mutual

/-- draw_subtree as the list of lines it prints: the node line, then (when
draw_files) the file lines at indent + name length + PREFIX_SUFFIX_LENGTH,
then each child subtree at that same increased indentation. -/
def draw_subtree (node : DirNode) (indent : Nat) (drawFiles counts : Bool) : List String :=
  drawNodeLine node indent counts ::
    ((if drawFiles then
        drawFileLines (indent + node.name.length + PREFIX_SUFFIX_LENGTH) node.files
      else []) ++
     drawSubtreeChildren node.children
       (indent + node.name.length + PREFIX_SUFFIX_LENGTH) drawFiles counts)
termination_by sizeOf node
decreasing_by
  cases node
  simp

/-- The loop of draw_subtree over the children, concatenating their lines. -/
def drawSubtreeChildren : List DirNode → Nat → Bool → Bool → List String
  | [], _, _, _ => []
  | c :: rest, indent, drawFiles, counts =>
    draw_subtree c indent drawFiles counts ++
      drawSubtreeChildren rest indent drawFiles counts
termination_by l => sizeOf l

end

/-! ### Archiving: COMPRESSION tables, _call_tar, archive_subtree

Tar is an external process; its completion statuses, the existence checks on
destination paths and the possible mkdir failures are inputs of the model,
collected in an environment.  What archive_subtree does to the world is
returned as a trace of events: tar invocations (with the full command line)
and created directories. -/

/-- The COMPRESSION_TYPE table of the module: compression name to tar flag.
There is no entry for the name none (the flag step skips the table then). -/
def COMPRESSION_TYPE : List (String × String) :=
  [("gzip", "-z"), ("bzip", "-j"), ("xz", "-J")]

/-- The COMPRESSION_EXT table of the module: compression name to the
extension appended after .tar. -/
def COMPRESSION_EXT : List (String × String) :=
  [("gzip", ".gz"), ("bzip", ".bz"), ("xz", ".xz"), ("none", "")]

/-- The errors archive_subtree can raise: ArchivingProblemError with its
message, or the KeyError of a failed dictionary lookup. -/
inductive AErr where
  | archivingProblem : String → AErr
  | keyError : String → AErr
deriving Repr, DecidableEq

/-- Python dictionary lookup d[k]: the value, or KeyError on a missing
key. -/
def tableGet (t : List (String × String)) (k : String) : Except AErr String :=
  match t.find? (fun p => p.1 == k) with
  | some p => Except.ok p.2
  | none => Except.error (AErr.keyError k)

/-- Lines 200 to 203 of archive_subtree: start from the verbosity args and
append COMPRESSION_TYPE[compression] unless the compression is none.  An
unknown compression name raises the KeyError here, before any tar call. -/
def compressionFlagArgs (args0 : List String) (compression : String) : Except AErr (List String) :=
  if compression == "none" then Except.ok args0
  else (tableGet COMPRESSION_TYPE compression).map (fun f => args0 ++ [f])

/-- An observable effect of archive_subtree: a tar invocation with its full
command line (_call_tar runs the command tar with the built args), or a
destination directory created by os.mkdir. -/
inductive Event where
  | tar : List String → Event
  | mkdir : String → Event
deriving Repr, DecidableEq

/-- The external world: the completion status tar returns for a given
command line, which destination paths os.path.exists reports, and whether
os.mkdir raises OSError (with its message) for a given path. -/
structure ArchiveEnv where
  tarStatus : List String → Int
  pathExists : String → Bool
  mkdirErr : String → Option String

/-- _call_tar: build the command tar with the args and run it, obtaining a
completion status.  The source ignores the value subprocess.call returns,
so the status is produced here and it is the caller that discards it. -/
def call_tar (env : ArchiveEnv) (args : List String) : List String × Int :=
  ("tar" :: args, env.tarStatus ("tar" :: args))

mutual

/-- archive_subtree: the local retcode is set to 0 and never reassigned
(the statuses _call_tar obtains are discarded), the compression flag is
looked up, then a leaf node (no children) is archived as one tarball
dest/name.tar ext with the parent directory as the tar working directory
and the name as the single member, while a node with children gets a
directory dest/name created (if absent; an OSError becomes
ArchivingProblemError) and, when it has files, one tarball
dest/name/name.tar ext with the node path as working directory and the bare
file names as members; the dead retcode check follows, then the children
are archived into dest/name.  The result is the event trace plus the
raised error, if any. -/
def archive_subtree (env : ArchiveEnv) (node : DirNode) (dest compression : String)
    (verbose : Bool) : List Event × Option AErr :=
  let retcode : Int := 0
  let args0 : List String := if verbose then ["-v"] else []
  match compressionFlagArgs args0 compression with
  | Except.error e => ([], some e)
  | Except.ok args =>
    let branch : List Event × Option AErr :=
      if node.children.isEmpty then
        match tableGet COMPRESSION_EXT compression with
        | Except.error e => ([], some e)
        | Except.ok ext =>
          let args2 := args ++ ["-c", "-C", dirname (rstripSlashes node.path), "-f",
            ospjoin dest (node.name ++ ".tar" ++ ext), node.name]
          let called := call_tar env args2
          ([Event.tar called.1], none)
      else
        let target := ospjoin dest node.name
        let mkStep : List Event × Option AErr :=
          if env.pathExists target then ([], none)
          else
            match env.mkdirErr target with
            | some oserr =>
              ([], some (AErr.archivingProblem
                ("Cannot create directory " ++ target ++ ".\n" ++ oserr)))
            | none => ([Event.mkdir target], none)
        match mkStep with
        | (t, some e) => (t, some e)
        | (t, none) =>
          if node.files.isEmpty then (t, none)
          else
            match tableGet COMPRESSION_EXT compression with
            | Except.error e => (t, some e)
            | Except.ok ext =>
              let args2 := args ++ ["-c", "-C", node.path, "-f",
                ospjoin (ospjoin dest node.name) (node.name ++ ".tar" ++ ext)] ++ node.files
              let called := call_tar env args2
              (t ++ [Event.tar called.1], none)
    match branch with
    | (t, some e) => (t, some e)
    | (t, none) =>
      if retcode ≠ 0 then
        (t, some (AErr.archivingProblem
          ("Return code of tar (archiving " ++ node.path ++ ") was: " ++ toString retcode)))
      else
        match archiveChildren env node.children (ospjoin dest node.name) compression verbose with
        | (t2, e2) => (t ++ t2, e2)
termination_by sizeOf node
decreasing_by
  cases node
  simp

/-- The loop of archive_subtree over the children: each child is archived
into the new destination in order; a raised error stops the loop and
propagates. -/
def archiveChildren (env : ArchiveEnv) : List DirNode → String → String → Bool →
    List Event × Option AErr
  | [], _, _, _ => ([], none)
  | c :: rest, dest, compression, verbose =>
    match archive_subtree env c dest compression verbose with
    | (t, some e) => (t, some e)
    | (t, none) =>
      match archiveChildren env rest dest compression verbose with
      | (t2, e2) => (t ++ t2, e2)
termination_by l => sizeOf l

end

/-! ### _find_matching_item and the undefined name NoMatchError

The module defines exactly two exception classes, ArchivingProblemError and
NoMatchingError; _find_matching_item raises the name NoMatchError, which is
defined nowhere (neither in the module nor among Python builtins), and in
Python evaluating an undefined name raises NameError. -/

/-- The exception class names the module dir_tree defines. -/
def moduleExceptionNames : List String :=
  ["ArchivingProblemError", "NoMatchingError"]

/-- The outcome of a raise statement or of _find_matching_item: an instance
of a defined exception class (with its message), or the NameError produced
by evaluating an undefined identifier. -/
inductive FindErr where
  | exc : String → String → FindErr
  | nameError : String → FindErr
deriving Repr, DecidableEq

/-- A Python raise whose expression is the identifier ident applied to a
message: when ident is a defined exception class this raises that exception,
otherwise evaluating the identifier itself raises NameError naming it. -/
def pyRaise (ident msg : String) : FindErr :=
  if moduleExceptionNames.contains ident then FindErr.exc ident msg
  else FindErr.nameError ident

/-- _find_matching_item over a successful os.listdir result (the items of
the destination directory, in listing order): return dest joined with the
first item the regular-expression test accepts, else execute the statement
raise NoMatchError.  The regex test (re.match of name_part followed by dot
star, ignoring case) is abstracted as the predicate accepts.  The except
IOError clause of the source does not catch a NameError, so the raise
propagates. -/
def find_matching_item (accepts : String → Bool) (dest : String)
    (items : List String) : Except FindErr String :=
  match items.find? (fun item => accepts item) with
  | some item => Except.ok (ospjoin dest item)
  | none => Except.error (pyRaise "NoMatchError" "No matching directory found.")

/-! ### DirList construction

DirList.__init__ is declared with an empty parameter list.  Python passes
the new instance as an implicit first argument to __init__, so the call
receives one more positional argument than the zero declared parameters and
raises TypeError before the body runs. -/

/-- The number of formal parameters DirList.__init__ declares in the
source: zero (not even self). -/
def dirListInitParamCount : Nat := 0

/-- The outcome of a Python call: a value, or a TypeError for an arity
mismatch. -/
inductive CallResult (α : Type) where
  | ok : α → CallResult α
  | typeError : CallResult α
deriving Repr, DecidableEq

/-- Constructing DirList with a number of explicit arguments: the instance
is prepended as the implicit first argument, and the call succeeds only if
the resulting count equals the declared parameter count of __init__. -/
def constructDirList (explicitArgs : Nat) : CallResult Unit :=
  if 1 + explicitArgs = dirListInitParamCount then CallResult.ok () else CallResult.typeError

/-! ### Concrete environments used for evaluations and witnesses -/

/-- A world in which every tar invocation completes with the failure
status 2, no destination path exists yet and every mkdir succeeds. -/
def envTarFails : ArchiveEnv := ArchiveEnv.mk (fun _ => 2) (fun _ => false) (fun _ => none)

/-- A world in which every tar invocation succeeds, no destination path
exists yet and every mkdir succeeds. -/
def envBenign : ArchiveEnv := ArchiveEnv.mk (fun _ => 0) (fun _ => false) (fun _ => none)

/-- A world in which no destination path exists and every mkdir raises
OSError with a permission message. -/
def envMkdirDenied : ArchiveEnv :=
  ArchiveEnv.mk (fun _ => 0) (fun _ => false) (fun _ => some "Permission denied")

/-! ## Theorems for the claims -/

/-- Claim C1.  The claim states that the completion status of every tar
invocation is captured and that the first non-zero status raises an
ArchivingProblemError naming the path and the status.  The code does not do
this: the local retcode stays 0 forever (_call_tar discards the
subprocess.call result), so in a world where every tar invocation completes
with status 2 the archiving of a two-level tree still performs all three
steps (mkdir, the file archive of the root, the leaf archive of the child)
and finishes with no error raised at all, contradicting both the claim and
the docstring of archive_subtree. -/
theorem archive_tar_failure_unnoticed :
    archive_subtree envTarFails
      (DirNode.mk "/r" "r" ["a.txt"] [DirNode.mk "/r/s" "s" ["b.txt"] []]) "/dst" "gzip" false =
      ([Event.mkdir "/dst/r",
        Event.tar ["tar", "-z", "-c", "-C", "/r", "-f", "/dst/r/r.tar.gz", "a.txt"],
        Event.tar ["tar", "-z", "-c", "-C", "/r", "-f", "/dst/r/s.tar.gz", "s"]], none) := by
  simp only [archive_subtree, archiveChildren]
  rfl

/-- Claim C2.  The claim states that the include-hidden mode chosen at build
time applies uniformly to the whole subtree.  It does not: build_subtree
recurses with child.build_subtree(), dropping the flag, so with take_hidden
true a hidden file at depth one (here .h inside subdirectory s) still
disappears while the hidden file .top at the root is kept. -/
theorem build_take_hidden_dropped_in_recursion :
    build_subtree true "/r"
      [FSEntry.dir "s" [FSEntry.file ".h", FSEntry.file "v.txt"], FSEntry.file ".top"] =
      DirNode.mk "/r" "r" [".top"] [DirNode.mk "/r/s" "s" ["v.txt"] []] := by
  simp only [build_subtree, buildChildren]
  rfl

/-- Claim C3.  For every leaf directory (children empty, files arbitrary,
so also when there are zero files) and every valid compression name,
archiving performs exactly one event: a tar invocation whose output file is
dest/name.tar followed by the compression extension, whose single named
member is the directory name itself, and whose working directory (the -C
argument) is the parent of the directory; no error is raised. -/
theorem leaf_dir_yields_single_archive (env : ArchiveEnv) (node : DirNode)
    (dest compression : String) (verbose : Bool) (hleaf : node.children = [])
    (hcomp : compression = "gzip" ∨ compression = "bzip" ∨ compression = "xz" ∨
      compression = "none") :
    ∃ flags ext, tableGet COMPRESSION_EXT compression = Except.ok ext ∧
      archive_subtree env node dest compression verbose =
        ([Event.tar ("tar" :: ((if verbose then ["-v"] else []) ++ flags ++
            ["-c", "-C", dirname (rstripSlashes node.path), "-f",
             ospjoin dest (node.name ++ ".tar" ++ ext), node.name]))], none) := by
  obtain ⟨p, nm, fs, ch⟩ := node
  replace hleaf : ch = [] := hleaf
  subst hleaf
  rcases hcomp with h | h | h | h <;> subst h
  · exact ⟨["-z"], ".gz", rfl,
      by cases verbose <;> (simp only [archive_subtree, archiveChildren]; rfl)⟩
  · exact ⟨["-j"], ".bz", rfl,
      by cases verbose <;> (simp only [archive_subtree, archiveChildren]; rfl)⟩
  · exact ⟨["-J"], ".xz", rfl,
      by cases verbose <;> (simp only [archive_subtree, archiveChildren]; rfl)⟩
  · exact ⟨[], "", rfl,
      by cases verbose <;> (simp only [archive_subtree, archiveChildren]; rfl)⟩

/-- Witness for claim C3 at a concrete leaf directory with zero files. -/
theorem leaf_dir_yields_single_archive_witness :
    ∃ flags ext, tableGet COMPRESSION_EXT "gzip" = Except.ok ext ∧
      archive_subtree envBenign (DirNode.mk "/s/d" "d" [] []) "/dst" "gzip" false =
        ([Event.tar ("tar" :: ((if false then ["-v"] else []) ++ flags ++
            ["-c", "-C", dirname (rstripSlashes "/s/d"), "-f",
             ospjoin "/dst" ("d" ++ ".tar" ++ ext), "d"]))], none) :=
  leaf_dir_yields_single_archive envBenign (DirNode.mk "/s/d" "d" [] []) "/dst" "gzip" false
    rfl (Or.inl rfl)

/-- Claim C4.  For every non-leaf directory and valid compression, when the
destination directory can be ensured (it already exists or mkdir succeeds),
the events of archiving are exactly: the creation of the same-named
directory dest/name when absent (never a top-level archive file for the
directory), then, exactly when the directory directly contains files, one
tar invocation writing dest/name/name.tar plus extension whose members are
exactly the bare file names with the working directory set to the directory
itself, then the events of archiving each child into destination dest/name;
the final error is whatever the recursion into the children produces. -/
theorem nonleaf_dir_mirrors_directory (env : ArchiveEnv) (node : DirNode)
    (dest compression : String) (verbose : Bool) (hne : node.children ≠ [])
    (hcomp : compression = "gzip" ∨ compression = "bzip" ∨ compression = "xz" ∨
      compression = "none")
    (hmk : env.pathExists (ospjoin dest node.name) = true ∨
      env.mkdirErr (ospjoin dest node.name) = none) :
    ∃ flags ext, tableGet COMPRESSION_EXT compression = Except.ok ext ∧
      archive_subtree env node dest compression verbose =
        ((if env.pathExists (ospjoin dest node.name) then [] else
            [Event.mkdir (ospjoin dest node.name)]) ++
         (if node.files.isEmpty then [] else
           [Event.tar ("tar" :: ((if verbose then ["-v"] else []) ++ flags ++
             ["-c", "-C", node.path, "-f",
              ospjoin (ospjoin dest node.name) (node.name ++ ".tar" ++ ext)] ++ node.files))]) ++
         (archiveChildren env node.children (ospjoin dest node.name) compression verbose).1,
         (archiveChildren env node.children (ospjoin dest node.name) compression verbose).2) := by
  obtain ⟨p, nm, fs, ch⟩ := node
  cases ch with
  | nil => exact absurd rfl hne
  | cons c cs =>
    have hstep : ∀ flags ext,
        compressionFlagArgs (if verbose then ["-v"] else []) compression =
          Except.ok ((if verbose then ["-v"] else []) ++ flags) →
        tableGet COMPRESSION_EXT compression = Except.ok ext →
        archive_subtree env (DirNode.mk p nm fs (c :: cs)) dest compression verbose =
          ((if env.pathExists (ospjoin dest nm) then [] else
              [Event.mkdir (ospjoin dest nm)]) ++
           (if fs.isEmpty then [] else
             [Event.tar ("tar" :: ((if verbose then ["-v"] else []) ++ flags ++
               ["-c", "-C", p, "-f",
                ospjoin (ospjoin dest nm) (nm ++ ".tar" ++ ext)] ++ fs))]) ++
           (archiveChildren env (c :: cs) (ospjoin dest nm) compression verbose).1,
           (archiveChildren env (c :: cs) (ospjoin dest nm) compression verbose).2) := by
      intro flags ext hflag hext
      rcases hmk with hpe | hmq
      · replace hpe : env.pathExists (ospjoin dest nm) = true := hpe
        cases fs <;> simp only [archive_subtree, hflag, hext, hpe] <;> rfl
      · replace hmq : env.mkdirErr (ospjoin dest nm) = none := hmq
        cases hpe : env.pathExists (ospjoin dest nm) <;> cases fs <;>
          simp only [archive_subtree, hflag, hext, hpe, hmq] <;> rfl
    rcases hcomp with h | h | h | h <;> subst h
    · exact ⟨["-z"], ".gz", rfl, hstep ["-z"] ".gz" rfl rfl⟩
    · exact ⟨["-j"], ".bz", rfl, hstep ["-j"] ".bz" rfl rfl⟩
    · exact ⟨["-J"], ".xz", rfl, hstep ["-J"] ".xz" rfl rfl⟩
    · exact ⟨[], "", rfl, hstep [] "" (by cases verbose <;> rfl) rfl⟩

/-- Witness for claim C4 at a concrete non-leaf directory with one file and
one child, in a world where the destination is absent and mkdir works. -/
theorem nonleaf_dir_mirrors_directory_witness :
    ∃ flags ext, tableGet COMPRESSION_EXT "gzip" = Except.ok ext ∧
      archive_subtree envBenign (DirNode.mk "/r" "r" ["a.txt"] [DirNode.mk "/r/s" "s" [] []])
          "/dst" "gzip" false =
        ((if envBenign.pathExists (ospjoin "/dst" "r") then [] else
            [Event.mkdir (ospjoin "/dst" "r")]) ++
         (if (["a.txt"] : List String).isEmpty then [] else
           [Event.tar ("tar" :: ((if false then ["-v"] else []) ++ flags ++
             ["-c", "-C", "/r", "-f",
              ospjoin (ospjoin "/dst" "r") ("r" ++ ".tar" ++ ext)] ++ ["a.txt"]))]) ++
         (archiveChildren envBenign [DirNode.mk "/r/s" "s" [] []]
           (ospjoin "/dst" "r") "gzip" false).1,
         (archiveChildren envBenign [DirNode.mk "/r/s" "s" [] []]
           (ospjoin "/dst" "r") "gzip" false).2) :=
  nonleaf_dir_mirrors_directory envBenign
    (DirNode.mk "/r" "r" ["a.txt"] [DirNode.mk "/r/s" "s" [] []]) "/dst" "gzip" false
    (by simp) (Or.inl rfl) (Or.inr rfl)

/-- Claim C5.  For every non-leaf directory, when the destination directory
dest/name is absent and creating it fails, archive_subtree raises
ArchivingProblemError carrying the path and the underlying OSError message,
and its event trace is empty: no archive is made and no child is visited. -/
theorem nonleaf_mkdir_failure_fatal (env : ArchiveEnv) (node : DirNode)
    (dest compression : String) (verbose : Bool) (oserr : String) (hne : node.children ≠ [])
    (hcomp : compression = "gzip" ∨ compression = "bzip" ∨ compression = "xz" ∨
      compression = "none")
    (hpe : env.pathExists (ospjoin dest node.name) = false)
    (hmk : env.mkdirErr (ospjoin dest node.name) = some oserr) :
    archive_subtree env node dest compression verbose =
      ([], some (AErr.archivingProblem
        ("Cannot create directory " ++ ospjoin dest node.name ++ ".\n" ++ oserr))) := by
  obtain ⟨p, nm, fs, ch⟩ := node
  cases ch with
  | nil => exact absurd rfl hne
  | cons c cs =>
    replace hpe : env.pathExists (ospjoin dest nm) = false := hpe
    replace hmk : env.mkdirErr (ospjoin dest nm) = some oserr := hmk
    rcases hcomp with h | h | h | h <;> subst h <;>
      (simp only [archive_subtree, hpe, hmk]; rfl)

/-- Witness for claim C5 at a concrete non-leaf directory in a world where
mkdir raises a permission error. -/
theorem nonleaf_mkdir_failure_fatal_witness :
    archive_subtree envMkdirDenied (DirNode.mk "/r" "r" [] [DirNode.mk "/r/s" "s" [] []])
        "/dst" "gzip" false =
      ([], some (AErr.archivingProblem
        ("Cannot create directory " ++ ospjoin "/dst" "r" ++ ".\n" ++ "Permission denied"))) :=
  nonleaf_mkdir_failure_fatal envMkdirDenied
    (DirNode.mk "/r" "r" [] [DirNode.mk "/r/s" "s" [] []]) "/dst" "gzip" false
    "Permission denied" (by simp) (Or.inl rfl) rfl rfl

/-- Claim C6.  The four recognized compression names map to their documented
flag and extension pairs (gzip to -z and .gz, bzip to -j and .bz, xz to -J
and .xz, none to no flag at all and the empty extension), and for any other
compression string archive_subtree stops with the KeyError of the flag
lookup while its event trace is empty: no tar invocation occurs. -/
theorem compression_table_mapping (env : ArchiveEnv) (node : DirNode) (dest : String)
    (verbose : Bool) (compression : String)
    (hc : compression ≠ "gzip" ∧ compression ≠ "bzip" ∧ compression ≠ "xz" ∧
      compression ≠ "none") :
    (∀ a, compressionFlagArgs a "gzip" = Except.ok (a ++ ["-z"])) ∧
    tableGet COMPRESSION_EXT "gzip" = Except.ok ".gz" ∧
    (∀ a, compressionFlagArgs a "bzip" = Except.ok (a ++ ["-j"])) ∧
    tableGet COMPRESSION_EXT "bzip" = Except.ok ".bz" ∧
    (∀ a, compressionFlagArgs a "xz" = Except.ok (a ++ ["-J"])) ∧
    tableGet COMPRESSION_EXT "xz" = Except.ok ".xz" ∧
    (∀ a, compressionFlagArgs a "none" = Except.ok a) ∧
    tableGet COMPRESSION_EXT "none" = Except.ok "" ∧
    archive_subtree env node dest compression verbose =
      ([], some (AErr.keyError compression)) := by
  obtain ⟨hg, hb, hx, hn⟩ := hc
  have e1 : (compression == "none") = false := by simp [hn]
  have e2 : ("gzip" == compression) = false := by simp [Ne.symm hg]
  have e3 : ("bzip" == compression) = false := by simp [Ne.symm hb]
  have e4 : ("xz" == compression) = false := by simp [Ne.symm hx]
  refine ⟨fun a => rfl, rfl, fun a => rfl, rfl, fun a => rfl, rfl, fun a => rfl, rfl, ?_⟩
  simp only [archive_subtree, compressionFlagArgs, tableGet, COMPRESSION_TYPE, List.find?,
    e1, e2, e3, e4]
  rfl

/-- Witness for claim C6 at the unrecognized compression name zstd. -/
theorem compression_table_mapping_witness :
    (∀ a, compressionFlagArgs a "gzip" = Except.ok (a ++ ["-z"])) ∧
    tableGet COMPRESSION_EXT "gzip" = Except.ok ".gz" ∧
    (∀ a, compressionFlagArgs a "bzip" = Except.ok (a ++ ["-j"])) ∧
    tableGet COMPRESSION_EXT "bzip" = Except.ok ".bz" ∧
    (∀ a, compressionFlagArgs a "xz" = Except.ok (a ++ ["-J"])) ∧
    tableGet COMPRESSION_EXT "xz" = Except.ok ".xz" ∧
    (∀ a, compressionFlagArgs a "none" = Except.ok a) ∧
    tableGet COMPRESSION_EXT "none" = Except.ok "" ∧
    archive_subtree envBenign (DirNode.mk "/r" "r" [] []) "/dst" "zstd" false =
      ([], some (AErr.keyError "zstd")) :=
  compression_table_mapping envBenign (DirNode.mk "/r" "r" [] []) "/dst" false "zstd"
    ⟨by decide, by decide, by decide, by decide⟩

/-- Claim C7.  For every node and counts flag, the suffix of the directory
line is the plus marker when the node has children; the o marker when it
has no children, no files and counts is off; and the colon marker, followed
by the file count exactly when counts is on, when the node has files or has
no files but counts is on. -/
theorem draw_node_suffix_cases (node : DirNode) (counts : Bool) :
    (node.children ≠ [] → nodeSuffix node counts = " +") ∧
    (node.children = [] → node.files = [] → counts = false → nodeSuffix node counts = " o") ∧
    (node.children = [] → (node.files ≠ [] ∨ counts = true) →
      nodeSuffix node counts =
        " :" ++ (if counts then " " ++ toString node.files.length else "")) := by
  refine ⟨?_, ?_, ?_⟩
  · intro h
    simp [nodeSuffix, h]
  · intro h1 h2 h3
    subst h3
    simp [nodeSuffix, h1, h2]
  · intro h1 h2
    rcases h2 with h2 | h2
    · simp [nodeSuffix, h1, h2]
    · subst h2
      simp [nodeSuffix, h1]

/-- Witness for claim C7: one concrete node per suffix case. -/
theorem draw_node_suffix_cases_witness :
    nodeSuffix (DirNode.mk "/r" "r" [] [DirNode.mk "/r/s" "s" [] []]) false = " +" ∧
    nodeSuffix (DirNode.mk "/r" "r" [] []) false = " o" ∧
    nodeSuffix (DirNode.mk "/r" "r" ["a.txt"] []) true = " : 1" :=
  ⟨(draw_node_suffix_cases (DirNode.mk "/r" "r" [] [DirNode.mk "/r/s" "s" [] []]) false).1
     (by simp),
   (draw_node_suffix_cases (DirNode.mk "/r" "r" [] []) false).2.1 rfl rfl rfl,
   (draw_node_suffix_cases (DirNode.mk "/r" "r" ["a.txt"] []) true).2.2 rfl
     (Or.inl (by simp))⟩

/-- The loop of draw_subtree over children concatenates the rendering of
each child at the given indentation, in order. -/
theorem drawSubtreeChildren_eq (l : List DirNode) (indent : Nat) (df cts : Bool) :
    drawSubtreeChildren l indent df cts =
      (l.map (fun c => draw_subtree c indent df cts)).flatten := by
  induction l with
  | nil => simp [drawSubtreeChildren]
  | cons c rest ih => simp [drawSubtreeChildren, ih]

/-- _draw_files prints one star line per file at the given indentation. -/
theorem drawFileLines_eq (indent : Nat) (files : List String) :
    drawFileLines indent files = files.map (fun f => indentSpaces indent ++ "* " ++ f) := by
  induction files with
  | nil => rfl
  | cons f rest ih => simp [drawFileLines, ih]

/-- Claim C8.  For every node rendered at indentation i and both values of
the show_files flag, the output is the node line at i, then, exactly when
show_files is set, the file lines indented at i + (length of the node name)
+ PREFIX_SUFFIX_LENGTH, then (after all file lines) each child rendered at
that same derived indentation: the increase is driven by the name length of
the parent, not a fixed per-level width, whatever the flags. -/
theorem draw_subtree_indentation (node : DirNode) (indent : Nat) (drawFiles counts : Bool) :
    draw_subtree node indent drawFiles counts =
      drawNodeLine node indent counts ::
        ((if drawFiles then
            node.files.map (fun f =>
              indentSpaces (indent + node.name.length + PREFIX_SUFFIX_LENGTH) ++ "* " ++ f)
          else []) ++
         (node.children.map (fun c =>
           draw_subtree c (indent + node.name.length + PREFIX_SUFFIX_LENGTH) drawFiles
             counts)).flatten) := by
  rw [draw_subtree]
  simp [drawFileLines_eq, drawSubtreeChildren_eq]

/-- Claim C9.  For every destination listing in which no item matches the
name part, _find_matching_item evaluates the undefined name NoMatchError and
therefore fails with a NameError; the defined NoMatchingError exception of
the module is never the outcome. -/
theorem find_matching_item_raises_name_error (accepts : String → Bool) (dest : String)
    (items : List String) (h : ∀ item ∈ items, accepts item = false) :
    find_matching_item accepts dest items = Except.error (FindErr.nameError "NoMatchError") ∧
    ∀ msg, find_matching_item accepts dest items ≠
      Except.error (FindErr.exc "NoMatchingError" msg) := by
  have hf : items.find? (fun item => accepts item) = none := by
    rw [List.find?_eq_none]
    intro x hx
    simp [h x hx]
  constructor
  · simp only [find_matching_item, hf]
    rfl
  · intro msg
    simp only [find_matching_item, hf]
    intro hcontra
    simp [pyRaise, moduleExceptionNames] at hcontra

/-- Witness for claim C9: a destination with two items and a matcher that
accepts nothing. -/
theorem find_matching_item_raises_name_error_witness :
    find_matching_item (fun _ => false) "/backups" ["alpha", "beta"] =
      Except.error (FindErr.nameError "NoMatchError") ∧
    ∀ msg, find_matching_item (fun _ => false) "/backups" ["alpha", "beta"] ≠
      Except.error (FindErr.exc "NoMatchingError" msg) :=
  find_matching_item_raises_name_error (fun _ => false) "/backups" ["alpha", "beta"]
    (fun _ _ => rfl)

/-- Claim C10.  Every attempt to construct a DirList raises TypeError:
__init__ declares zero parameters while the construction always passes the
instance itself, so the arity can never match, whatever the number of
explicit arguments; hence no DirList instance exists and archive_list is
unreachable through the public interface. -/
theorem dirlist_construction_type_error (explicitArgs : Nat) :
    constructDirList explicitArgs = CallResult.typeError := by
  simp only [constructDirList, dirListInitParamCount]
  rw [if_neg (by omega)]

end Backuph
